import Mathlib

/-!
Verification of the tool-invocation orchestration layer of the
Selector ReACT agents repository.

The Python functions under scrutiny live in
`selector_react_agent/netbox_agent.py` (`validate_tool_input`,
`get_data_directly`, `delete_data_handler`, `NetBoxController.get_api`,
`NetBoxController.delete_api`) and `selector_react_agent/opencve_agent.py`
(`fetch_cves_from_opencve`).  They are shallowly embedded below:

* Python values flowing through the tool layer become the inductive `PyVal`
  (strings, ints, dicts as association lists, lists, `None`, and an opaque
  `other` for values the code never inspects).
* Python string operations (`lower`, `strip`, `split`, `join`, slicing,
  `replace`, `rstrip`) are re-implemented structurally over `List Char`,
  matching CPython semantics on the character sequences involved.
* The network is abstracted as environment functions handed to each embedded
  operation: an `HttpOutcome` describes what a single HTTP exchange did
  (a status/body pair, or a transport failure), and the embeddings record a
  trace of the calls they issue so that "no network call happens" and
  "exactly N attempts are performed" are provable statements.
* A Python function that may raise an uncaught exception returns a `PyCall`
  (`returns v` or `raises msg`); exception message texts are abstracted
  where the source never inspects them.
-/

/-- Embedded Python values as seen by the tool layer. -/
inductive PyVal where
  | str (s : String)
  | int (n : Int)
  | dict (entries : List (String × PyVal))
  | list (elems : List PyVal)
  | pyNone
  | other

/-- Lookup of a key in a Python dict (association list, first binding wins). -/
def pyLookup : List (String × PyVal) → String → Option PyVal
  | [], _ => Option.none
  | (k, v) :: rest, key => if k == key then some v else pyLookup rest key

/-- Python `d.get(key, default)`. -/
def pyGetD (d : List (String × PyVal)) (key : String) (default : PyVal) : PyVal :=
  (pyLookup d key).getD default

/-- Python `"key" in d` membership test on a dict value; `False` on non-dicts
(the code only evaluates it on dicts). -/
def pyHasKey (v : PyVal) (key : String) : Bool :=
  match v with
  | .dict d => (pyLookup d key).isSome
  | _ => false

/-- Python truthiness of the embedded values. -/
def pyTruthy : PyVal → Bool
  | .str s => s != ""
  | .int n => n != 0
  | .dict d => !d.isEmpty
  | .list l => !l.isEmpty
  | .pyNone => false
  | .other => true

/-- Python `v == 0` for the values the code compares against a count. -/
def pyEqZero : PyVal → Bool
  | .int n => n == 0
  | _ => false

/-- Rendering of a value inside a Python f-string.  The dict/list/other
renderings are abstractions; the code only ever interpolates strings and
ints in the messages the claims talk about. -/
def pyStr : PyVal → String
  | .str s => s
  | .int n => toString n
  | .dict _ => "<dict>"
  | .list _ => "<list>"
  | .pyNone => "None"
  | .other => "<object>"

/-- The error dictionaries the agents communicate failures with:
`{"error": msg}`. -/
def errdict (msg : String) : PyVal :=
  PyVal.dict [("error", PyVal.str msg)]

/-- Python `s.lower()` (structural, over the character sequence). -/
def pyLower (s : String) : String := ⟨s.data.map Char.toLower⟩

/-- Python `s.strip()` (structural, over the character sequence). -/
def pyStrip (s : String) : String :=
  ⟨((s.data.dropWhile Char.isWhitespace).reverse.dropWhile Char.isWhitespace).reverse⟩

/-- Helper for `pySplitDot`: accumulates the current chunk (reversed). -/
def splitDotAux : List Char → List Char → List String
  | [], acc => [⟨acc.reverse⟩]
  | c :: cs, acc =>
    if c = '.' then ⟨acc.reverse⟩ :: splitDotAux cs [] else splitDotAux cs (c :: acc)

/-- Python `s.split(".")`. -/
def pySplitDot (s : String) : List String := splitDotAux s.data []

/-- Python `".".join(parts)`. -/
def joinDot : List String → String
  | [] => ""
  | [s] => s
  | s :: rest => s ++ "." ++ joinDot rest

/-- Python `s.rstrip("/")`. -/
def pyRstripSlash (s : String) : String :=
  ⟨(s.data.reverse.dropWhile (fun c => c == '/')).reverse⟩

/-- Python `s[:n]` character slicing. -/
def pySlice (s : String) (n : Nat) : String := ⟨s.data.take n⟩

/-- Python `s.replace("'", mark)` with `mark` the double quote, as used on raw
tool input before `json.loads`. -/
def pySquoteToDquote (s : String) : String :=
  ⟨s.data.map (fun c => if c = '\'' then '"' else c)⟩

/-- Result of calling an embedded Python function that may raise: either a
normal return value or an uncaught exception carrying a message. -/
inductive PyCall where
  | returns (v : PyVal)
  | raises (msg : String)

/-- The dict comprehension of `validate_tool_input` (netbox_agent.py:147):
`{key: input_data[key] for key in expected_keys if key in input_data}`. -/
def stripKeys (expected_keys : List String) (d : List (String × PyVal)) :
    List (String × PyVal) :=
  expected_keys.filterMap (fun k => (pyLookup d k).map (fun v => (k, v)))

/-- Embedding of `validate_tool_input` (netbox_agent.py:122-156).
`parse` models `json.loads` (`Option.none` is a `JSONDecodeError`); the last
argument is the remaining retry budget (`max_retries - retries`), so a call
with budget `max_retries` models the source's loop from `retries = 0`.
An empty `expected_keys` models a falsy (`None` or `[]`) `expected_keys`. -/
def validate_tool_input (parse : String → Option PyVal) :
    PyVal → List String → Nat → PyVal
  | _, _, 0 => errdict "Too many arguments provided, and retries exceeded."
  | input, ek, Nat.succ fuel =>
    match input with
    | .str s =>
      match parse s with
      | Option.none => errdict "Invalid JSON format."
      | some (.dict d) =>
        if ek ≠ [] ∧ ek.length < d.length then
          validate_tool_input parse (.dict (stripKeys ek d)) ek fuel
        else .dict d
      | some _ => errdict "Invalid input format. Expected JSON object."
    | .dict d =>
      if ek ≠ [] ∧ ek.length < d.length then
        validate_tool_input parse (.dict (stripKeys ek d)) ek fuel
      else .dict d
    | _ => errdict "Invalid input format. Expected JSON object."

/-- Every output of `validate_tool_input` is a dict. -/
theorem validate_tool_input_is_dict (parse : String → Option PyVal) :
    ∀ (n : Nat) (input : PyVal) (ek : List String),
      ∃ d, validate_tool_input parse input ek n = .dict d := by
  intro n
  induction n with
  | zero => intro input ek; exact ⟨_, rfl⟩
  | succ n ih =>
    intro input ek
    cases input with
    | str s =>
      simp only [validate_tool_input]
      cases parse s with
      | none => exact ⟨_, rfl⟩
      | some v =>
        cases v with
        | dict d =>
          by_cases h : ek ≠ [] ∧ ek.length < d.length
          · simpa [h] using ih (.dict (stripKeys ek d)) ek
          · exact ⟨d, by simp [h]⟩
        | str s => exact ⟨_, rfl⟩
        | int n => exact ⟨_, rfl⟩
        | list l => exact ⟨_, rfl⟩
        | pyNone => exact ⟨_, rfl⟩
        | other => exact ⟨_, rfl⟩
    | dict d =>
      by_cases h : ek ≠ [] ∧ ek.length < d.length
      · simpa [validate_tool_input, h] using ih (.dict (stripKeys ek d)) ek
      · exact ⟨d, by simp [validate_tool_input, h]⟩
    | int n => exact ⟨_, rfl⟩
    | list l => exact ⟨_, rfl⟩
    | pyNone => exact ⟨_, rfl⟩
    | other => exact ⟨_, rfl⟩

/-- C1 (amended): for a nonempty expected key set, every dict that
`validate_tool_input` returns — repaired payload, accepted payload or error
dict alike — has at most `|expected_keys|` entries.  Together with the fact
that the embedding is a total function on a `max_retries` fuel, this is the
bounded-repair convergence property. -/
theorem validate_tool_input_size_bound (parse : String → Option PyVal)
    (ek : List String) (hek : ek ≠ []) :
    ∀ (n : Nat) (input : PyVal) (d : List (String × PyVal)),
      validate_tool_input parse input ek n = .dict d → d.length ≤ ek.length := by
  have hpos : 0 < ek.length := List.length_pos.mpr hek
  have hstrip : ∀ d₀ : List (String × PyVal), (stripKeys ek d₀).length ≤ ek.length := by
    intro d₀
    exact List.length_filterMap_le _ _
  intro n
  induction n with
  | zero =>
    intro input d h
    simp only [validate_tool_input, errdict] at h
    cases h
    simpa using hpos
  | succ n ih =>
    intro input d h
    cases input with
    | str s =>
      simp only [validate_tool_input] at h
      cases hp : parse s with
      | none =>
        rw [hp] at h
        simp only [errdict] at h
        cases h
        simpa using hpos
      | some v =>
        rw [hp] at h
        cases v with
        | dict d' =>
          dsimp only at h
          by_cases hc : ek ≠ [] ∧ ek.length < d'.length
          · rw [if_pos hc] at h
            exact ih _ _ h
          · rw [if_neg hc] at h
            cases h
            rcases Decidable.not_and_iff_or_not.mp hc with h1 | h2
            · exact absurd hek h1
            · omega
        | str s' => simp only [errdict] at h; cases h; simpa using hpos
        | int m => simp only [errdict] at h; cases h; simpa using hpos
        | list l => simp only [errdict] at h; cases h; simpa using hpos
        | pyNone => simp only [errdict] at h; cases h; simpa using hpos
        | other => simp only [errdict] at h; cases h; simpa using hpos
    | dict d' =>
      simp only [validate_tool_input] at h
      by_cases hc : ek ≠ [] ∧ ek.length < d'.length
      · rw [if_pos hc] at h
        exact ih _ _ h
      · rw [if_neg hc] at h
        cases h
        rcases Decidable.not_and_iff_or_not.mp hc with h1 | h2
        · exact absurd hek h1
        · omega
    | int m =>
      simp only [validate_tool_input, errdict] at h; cases h; simpa using hpos
    | list l =>
      simp only [validate_tool_input, errdict] at h; cases h; simpa using hpos
    | pyNone =>
      simp only [validate_tool_input, errdict] at h; cases h; simpa using hpos
    | other =>
      simp only [validate_tool_input, errdict] at h; cases h; simpa using hpos

/-- C1 witness: the size bound applied at a concrete oversized payload
`{"a": 1, "b": 2}` against `expected_keys = ["api_url"]`: the repaired
result is the empty dict, of size at most one. -/
theorem validate_tool_input_size_bound_witness :
    (["api_url"] ≠ ([] : List String)) ∧
      validate_tool_input (fun _ => Option.none)
        (.dict [("a", .int 1), ("b", .int 2)]) ["api_url"] 5 = .dict [] ∧
      ([] : List (String × PyVal)).length ≤ (["api_url"] : List String).length :=
  ⟨by decide, rfl,
    validate_tool_input_size_bound (fun _ => Option.none) ["api_url"] (by decide)
      5 (.dict [("a", .int 1), ("b", .int 2)]) [] rfl⟩

/-- C1 counterexample: the payload `{"foo": "x"}` against
`expected_keys = ["api_url"]` is returned unchanged — a non-error payload —
even though its key `"foo"` is not a member of the expected key set, so the
returned key set is not a subset of `expected_keys`. -/
theorem validate_tool_input_subset_cex :
    validate_tool_input (fun _ => Option.none)
        (.dict [("foo", .str "x")]) ["api_url"] 5 = .dict [("foo", .str "x")] ∧
      pyHasKey (.dict [("foo", .str "x")]) "error" = false ∧
      ¬ ("foo" ∈ (["api_url"] : List String)) :=
  ⟨rfl, rfl, by decide⟩

/-- A dict payload no larger than the expected key set passes the size
check and is returned as-is on the current pass. -/
theorem validate_small_identity_lemma (parse : String → Option PyVal)
    (d : List (String × PyVal)) (ek : List String) (n : Nat)
    (h : d.length ≤ ek.length) :
    validate_tool_input parse (.dict d) ek (n + 1) = .dict d := by
  have hc : ¬ (ek ≠ [] ∧ ek.length < d.length) := by
    rintro ⟨-, hlt⟩
    omega
  simp [validate_tool_input, hc]

/-- C10: a dict payload with at most as many entries as `expected_keys` is
returned unchanged on the first pass (any positive retry budget; the source
default is `max_retries = 5`), even when some of its keys are not members of
`expected_keys`. -/
theorem validate_tool_input_small_identity (parse : String → Option PyVal)
    (d : List (String × PyVal)) (ek : List String) (n : Nat)
    (h : d.length ≤ ek.length) :
    validate_tool_input parse (.dict d) ek (n + 1) = .dict d :=
  validate_small_identity_lemma parse d ek n h

/-- C10 witness: `{"foo": "x"}` with `expected_keys = ["api_url", "payload"]`
and the default budget 5 is returned unchanged although `"foo"` is not an
expected key. -/
theorem validate_tool_input_small_identity_witness :
    (([("foo", PyVal.str "x")] : List (String × PyVal)).length ≤
        (["api_url", "payload"] : List String).length) ∧
      validate_tool_input (fun _ => Option.none)
        (.dict [("foo", .str "x")]) ["api_url", "payload"] (4 + 1) =
        .dict [("foo", .str "x")] :=
  ⟨by decide,
    validate_tool_input_small_identity (fun _ => Option.none)
      [("foo", .str "x")] ["api_url", "payload"] 4 (by decide)⟩

/-- Outcome of one HTTP exchange as seen by the `requests` calls in
`NetBoxController`: either a response with a status code, the text that
`str(HTTPError)` would render for it, and a parsed JSON body (`Option.none`
when `response.json()` would raise), or a transport failure whose exception
renders as `errText`. -/
inductive HttpOutcome where
  | resp (status : Nat) (errText : String) (body : Option PyVal)
  | transportErr (errText : String)

/-- Embedding of `NetBoxController.get_api` (netbox_agent.py:40-55): a
`requests` failure — transport error or `raise_for_status` on a 4xx/5xx —
is converted to `{"error": "Request failed: <e>"}`; otherwise the parsed
body is returned, and an unparseable body raises out of the method. -/
def get_api : HttpOutcome → PyCall
  | .transportErr t => .returns (errdict ("Request failed: " ++ t))
  | .resp status t body =>
    if 400 ≤ status ∧ status < 600 then .returns (errdict ("Request failed: " ++ t))
    else
      match body with
      | some v => .returns v
      | Option.none => .raises "JSONDecodeError"

/-- Embedding of `NetBoxController.delete_api` (netbox_agent.py:79-103):
204 yields the success dict, any other status — 2xx included — yields
`{"error": "Failed to delete. Status code: <code>"}`, and a transport
failure yields `{"error": "Request failed: <e>"}`. -/
def delete_api : HttpOutcome → PyVal
  | .transportErr t => errdict ("Request failed: " ++ t)
  | .resp status _ _ =>
    if status = 204 then
      PyVal.dict [("status", .str "success"), ("message", .str "Deletion successful.")]
    else errdict ("Failed to delete. Status code: " ++ toString status)

/-- Lowercase ASCII letter, the `[a-z]` class of the URL regex. -/
def isLowerAlpha (c : Char) : Bool := 'a' ≤ c && c ≤ 'z'

/-- Embedding of `re.match(r"^/api/[a-z]+/[a-z\-]+", api_url)`
(netbox_agent.py:169): an anchored prefix match; the character classes are
disjoint from the `/` separators, so greedy matching without backtracking is
exact. -/
def matchApiUrl (s : String) : Bool :=
  match s.data with
  | '/' :: 'a' :: 'p' :: 'i' :: '/' :: rest =>
    !(rest.takeWhile isLowerAlpha).isEmpty &&
      (match rest.dropWhile isLowerAlpha with
       | '/' :: rest2 => !(rest2.takeWhile (fun c => isLowerAlpha c || c == '-')).isEmpty
       | _ => false)
  | _ => false

/-- The `response.get("error")` truthiness test guarded by
`isinstance(response, dict)` (netbox_agent.py:186). -/
def gddIsErrorResp (v : PyVal) : Bool :=
  match v with
  | .dict d =>
    match pyLookup d "error" with
    | some ev => pyTruthy ev
    | Option.none => false
  | _ => false

/-- The `response['error']` interpolated into the failure message
(netbox_agent.py:189). -/
def gddErrorVal (v : PyVal) : PyVal :=
  match v with
  | .dict d => (pyLookup d "error").getD .pyNone
  | _ => .pyNone

/-- Embedding of the retry loop of `get_data_directly`
(netbox_agent.py:182-198).  `henv attempt` is what the network did for the
GET issued on that attempt; the result is paired with the number of
`get_api` calls performed.  The fuel is `retries + 1 - attempt`, matching
`for attempt in range(1, retries + 1)`; the fallback on exhausted fuel is
the source's final `return` after the loop. -/
def gdd_loop (henv : Nat → HttpOutcome) (retries : Nat) : Nat → Nat → PyVal × Nat
  | _, 0 => (errdict "Unexpected failure in API request.", 0)
  | attempt, Nat.succ fuel =>
    match get_api (henv attempt) with
    | .raises m =>
      if attempt = retries then
        (errdict ("GET request failed after " ++ toString retries ++ " attempts: " ++ m), 1)
      else
        let r := gdd_loop henv retries (attempt + 1) fuel
        (r.1, r.2 + 1)
    | .returns resp =>
      if gddIsErrorResp resp then
        if attempt = retries then
          (errdict ("API request failed after " ++ toString retries ++ " attempts: " ++
            pyStr (gddErrorVal resp)), 1)
        else
          let r := gdd_loop henv retries (attempt + 1) fuel
          (r.1, r.2 + 1)
      else
        (PyVal.dict [("status", .str "success"), ("message", .str "Data fetched successfully."),
          ("data", resp)], 1)

/-- Embedding of `get_data_directly` (netbox_agent.py:158-198): validate the
wrapped `{"api_url": ...}` payload, reject falsy or non-string URLs, reject
URLs failing the allow-list regex, then run the 5-attempt retry loop.  The
`Nat` component counts the GET requests issued.  The `raises` branch models
the `KeyError` of `input_data["api_url"]`, unreachable after validation. -/
def get_data_directly (henv : Nat → HttpOutcome) (parse : String → Option PyVal)
    (api_url : PyVal) : PyCall × Nat :=
  let vres := validate_tool_input parse (.dict [("api_url", api_url)]) ["api_url"] 5
  if pyHasKey vres "error" then (.returns vres, 0)
  else
    match vres with
    | .dict vd =>
      match pyLookup vd "api_url" with
      | Option.none => (.raises "KeyError: api_url", 0)
      | some a =>
        match a with
        | .str s =>
          if s == "" then (.returns (errdict "Invalid or missing `api_url`."), 0)
          else if !(matchApiUrl s) then
            (.returns (errdict ("Invalid API URL format: " ++ s)), 0)
          else
            let r := gdd_loop henv 5 1 5
            (.returns r.1, r.2)
        | _ => (.returns (errdict "Invalid or missing `api_url`."), 0)
    | _ => (.raises "KeyError: api_url", 0)

/-- Validation of the singleton `{"api_url": v}` payload wrapped by
`get_data_directly` is the identity. -/
theorem validate_api_url_wrapper (parse : String → Option PyVal) (v : PyVal) :
    validate_tool_input parse (.dict [("api_url", v)]) ["api_url"] 5 =
      .dict [("api_url", v)] :=
  validate_small_identity_lemma parse [("api_url", v)] ["api_url"] 4 (Nat.le_refl 1)

/-- Control-flow skeleton of `get_data_directly` on a string URL: validation
of the wrapped singleton payload is the identity, after which only the
falsy-URL check, the regex check and the retry loop remain. -/
theorem get_data_directly_str (henv : Nat → HttpOutcome)
    (parse : String → Option PyVal) (s : String) :
    get_data_directly henv parse (.str s) =
      if s == "" then (.returns (errdict "Invalid or missing `api_url`."), 0)
      else if !(matchApiUrl s) then
        (.returns (errdict ("Invalid API URL format: " ++ s)), 0)
      else (.returns (gdd_loop henv 5 1 5).1, (gdd_loop henv 5 1 5).2) := rfl

/-- C5 (amended): every nonempty fetch path that fails the allow-list regex
`^/api/[a-z]+/[a-z\-]+` is rejected with `Error("Invalid API URL format:
<path>")` and zero GET requests are issued.  (The empty path is also rejected
with zero GET requests, but with the message `"Invalid or missing
`api_url`."` — see the counterexample.) -/
theorem invalid_url_rejected_before_network (henv : Nat → HttpOutcome)
    (parse : String → Option PyVal) (s : String) (hs : s ≠ "")
    (hm : matchApiUrl s = false) :
    get_data_directly henv parse (.str s) =
      (.returns (errdict ("Invalid API URL format: " ++ s)), 0) := by
  have hbeq : (s == "") = false := beq_eq_false_iff_ne.mpr hs
  simp [get_data_directly_str, hbeq, hm]

/-- C5 witness: the malformed path `"/nope"` is rejected with the format
error and no network call. -/
theorem invalid_url_rejected_before_network_witness :
    ("/nope" ≠ "") ∧ matchApiUrl "/nope" = false ∧
      get_data_directly (fun _ => .transportErr "net down") (fun _ => Option.none)
        (.str "/nope") =
        (.returns (errdict ("Invalid API URL format: " ++ "/nope")), 0) :=
  ⟨by decide, by decide,
    invalid_url_rejected_before_network (fun _ => .transportErr "net down")
      (fun _ => Option.none) "/nope" (by decide) (by decide)⟩

/-- C5 counterexample: the empty path does not match the allow-listed shape,
yet the returned error is `"Invalid or missing `api_url`."`, not
`"Invalid API URL format: <path>"` (no network call is issued either way). -/
theorem invalid_url_empty_path_cex :
    matchApiUrl "" = false ∧
      get_data_directly (fun _ => .transportErr "net down") (fun _ => Option.none)
        (.str "") = (.returns (errdict "Invalid or missing `api_url`."), 0) ∧
      "Invalid or missing `api_url`." ≠ "Invalid API URL format: " :=
  ⟨rfl, rfl, by decide⟩

/-- A failing HTTP exchange — transport failure, or a 4xx/5xx status that
`raise_for_status` turns into a `RequestException` — and the message the
exception renders with. -/
def httpFailMsg : HttpOutcome → Option String
  | .transportErr t => some t
  | .resp st t _ => if 400 ≤ st ∧ st < 600 then some t else Option.none

/-- On a failing exchange `get_api` returns the error dict built from the
exception text. -/
theorem get_api_fail (o : HttpOutcome) (m : String) (h : httpFailMsg o = some m) :
    get_api o = .returns (errdict ("Request failed: " ++ m)) := by
  cases o with
  | transportErr t =>
    simp only [httpFailMsg, Option.some.injEq] at h
    simp only [get_api, h]
  | resp st t b =>
    simp only [httpFailMsg] at h
    by_cases hc : 400 ≤ st ∧ st < 600
    · rw [if_pos hc] at h
      simp only [Option.some.injEq] at h
      simp only [get_api]
      rw [if_pos hc, h]
    · rw [if_neg hc] at h
      cases h

/-- `"Request failed: " ++ m` is never the empty string, hence truthy. -/
theorem request_failed_truthy (m : String) :
    pyTruthy (.str ("Request failed: " ++ m)) = true := by
  simp only [pyTruthy, bne_iff_ne, ne_eq]
  intro h
  have h2 := congrArg String.data h
  simp [String.data_append] at h2

/-- The `response.get("error")` test succeeds on the error dict `get_api`
builds from a failed exchange. -/
theorem gddIsErrorResp_request_failed (m : String) :
    gddIsErrorResp (errdict ("Request failed: " ++ m)) = true := by
  show pyTruthy (.str ("Request failed: " ++ m)) = true
  exact request_failed_truthy m

/-- One retry-loop step on a failing attempt: log the attempt and either
give up with the summary message (last attempt) or recurse. -/
theorem gdd_loop_step_fail (henv : Nat → HttpOutcome) (retries attempt fuel : Nat)
    (m : String)
    (hga : get_api (henv attempt) = .returns (errdict ("Request failed: " ++ m))) :
    gdd_loop henv retries attempt (fuel + 1) =
      if attempt = retries then
        (errdict ("API request failed after " ++ toString retries ++ " attempts: " ++
          ("Request failed: " ++ m)), 1)
      else
        ((gdd_loop henv retries (attempt + 1) fuel).1,
          (gdd_loop henv retries (attempt + 1) fuel).2 + 1) := by
  simp only [gdd_loop, hga, gddIsErrorResp_request_failed]
  rfl

/-- C4 (amended): with every one of the five attempts failing — transport
error or HTTP 4xx/5xx — the fetch performs exactly 5 GET attempts and
returns `Error("API request failed after 5 attempts: <last detail>")`,
where the last detail is the error message recorded for the fifth attempt. -/
theorem retry_exhaust_five_attempts (henv : Nat → HttpOutcome)
    (parse : String → Option PyVal) (s : String) (msgs : Nat → String)
    (hfail : ∀ i, 1 ≤ i → i ≤ 5 → httpFailMsg (henv i) = some (msgs i))
    (hs : s ≠ "") (hm : matchApiUrl s = true) :
    get_data_directly henv parse (.str s) =
      (.returns (errdict
        ("API request failed after 5 attempts: Request failed: " ++ msgs 5)), 5) := by
  have h1 := get_api_fail _ _ (hfail 1 (by decide) (by decide))
  have h2 := get_api_fail _ _ (hfail 2 (by decide) (by decide))
  have h3 := get_api_fail _ _ (hfail 3 (by decide) (by decide))
  have h4 := get_api_fail _ _ (hfail 4 (by decide) (by decide))
  have h5 := get_api_fail _ _ (hfail 5 (by decide) (by decide))
  have hloop : gdd_loop henv 5 1 5 =
      (errdict ("API request failed after 5 attempts: Request failed: " ++ msgs 5), 5) := by
    rw [gdd_loop_step_fail henv 5 1 4 _ h1, if_neg (by decide),
      gdd_loop_step_fail henv 5 2 3 _ h2, if_neg (by decide),
      gdd_loop_step_fail henv 5 3 2 _ h3, if_neg (by decide),
      gdd_loop_step_fail henv 5 4 1 _ h4, if_neg (by decide),
      gdd_loop_step_fail henv 5 5 0 _ h5, if_pos rfl]
    rfl
  have hbeq : (s == "") = false := beq_eq_false_iff_ne.mpr hs
  simp [get_data_directly_str, hbeq, hm, hloop]

/-- C4 witness: all five GETs answered with HTTP 500; the result is the
summary error carrying the fifth failure's message, after exactly 5
attempts. -/
theorem retry_exhaust_five_attempts_witness :
    (∀ i, 1 ≤ i → i ≤ 5 →
      httpFailMsg (HttpOutcome.resp 500 ("boom " ++ toString i) Option.none) =
        some (("boom " ++ toString i))) ∧
      ("/api/dcim/devices/" ≠ "") ∧ matchApiUrl "/api/dcim/devices/" = true ∧
      get_data_directly (fun j => HttpOutcome.resp 500 ("boom " ++ toString j) Option.none)
        (fun _ => Option.none) (.str "/api/dcim/devices/") =
        (.returns (errdict
          ("API request failed after 5 attempts: Request failed: " ++ ("boom " ++ toString 5))), 5) :=
  ⟨fun i _ _ => rfl, by decide, by decide,
    retry_exhaust_five_attempts (fun j => HttpOutcome.resp 500 ("boom " ++ toString j) Option.none)
      (fun _ => Option.none) "/api/dcim/devices/" (fun i => "boom " ++ toString i)
      (fun i _ _ => rfl) (by decide) (by decide)⟩

/-- C4 counterexample: the summary message the code returns is
`"API request failed after 5 attempts: <detail>"`, which is not the literal
`"failed after 5 attempts: <detail>"` the claim quotes. -/
theorem retry_exhaust_message_cex :
    get_data_directly (fun _ => HttpOutcome.transportErr "boom")
        (fun _ => Option.none) (.str "/api/dcim/devices/") =
      (.returns (errdict "API request failed after 5 attempts: Request failed: boom"), 5) ∧
      "API request failed after 5 attempts: Request failed: boom" ≠
        "failed after 5 attempts: Request failed: boom" :=
  ⟨rfl, by decide⟩

/-- C6 (amended): outcomes of the REST client.  A transport failure always
yields an error dict.  `get_api` yields an error dict exactly on HTTP
4xx/5xx and returns the parsed body for every other status; `delete_api`
yields the success dict exactly on 204 and an error dict on every other
status, other 2xx statuses included. -/
theorem rest_client_outcomes :
    (∀ t, get_api (.transportErr t) = .returns (errdict ("Request failed: " ++ t))) ∧
      (∀ st t b, 400 ≤ st → st < 600 →
        get_api (.resp st t b) = .returns (errdict ("Request failed: " ++ t))) ∧
      (∀ st t v, st < 400 ∨ 600 ≤ st →
        get_api (.resp st t (some v)) = .returns v) ∧
      (∀ t b, delete_api (.resp 204 t b) =
        PyVal.dict [("status", .str "success"), ("message", .str "Deletion successful.")]) ∧
      (∀ st t b, st ≠ 204 →
        delete_api (.resp st t b) = errdict ("Failed to delete. Status code: " ++ toString st)) ∧
      (∀ t, delete_api (.transportErr t) = errdict ("Request failed: " ++ t)) := by
  refine ⟨fun t => rfl, fun st t b h1 h2 => ?_, fun st t v h => ?_, fun t b => ?_,
    fun st t b h => ?_, fun t => rfl⟩
  · simp only [get_api]
    rw [if_pos ⟨h1, h2⟩]
  · simp only [get_api]
    rw [if_neg (by omega)]
  · simp [delete_api]
  · simp only [delete_api]
    rw [if_neg h]

/-- C6 witness: the outcome table applied at concrete exchanges — a
transport failure, a 404 GET, a 200 GET, a 204 DELETE, a 500 DELETE and a
transport-failed DELETE. -/
theorem rest_client_outcomes_witness :
    get_api (.transportErr "boom") = .returns (errdict "Request failed: boom") ∧
      get_api (.resp 404 "404 Client Error" (some (.dict []))) =
        .returns (errdict "Request failed: 404 Client Error") ∧
      get_api (.resp 200 "" (some (.dict [("count", .int 1)]))) =
        .returns (.dict [("count", .int 1)]) ∧
      delete_api (.resp 204 "" Option.none) =
        PyVal.dict [("status", .str "success"), ("message", .str "Deletion successful.")] ∧
      delete_api (.resp 500 "500 Server Error" Option.none) =
        errdict "Failed to delete. Status code: 500" ∧
      delete_api (.transportErr "boom") = errdict "Request failed: boom" :=
  ⟨rest_client_outcomes.1 "boom",
    rest_client_outcomes.2.1 404 "404 Client Error" (some (.dict [])) (by decide) (by decide),
    rest_client_outcomes.2.2.1 200 "" (.dict [("count", .int 1)]) (Or.inl (by decide)),
    rest_client_outcomes.2.2.2.1 "" Option.none,
    rest_client_outcomes.2.2.2.2.1 500 "500 Server Error" Option.none (by decide),
    rest_client_outcomes.2.2.2.2.2 "boom"⟩

/-- C6 counterexample: a DELETE answered with HTTP 200 — a 2xx status — is
reported as `{"error": "Failed to delete. Status code: 200"}` rather than
the success the claim promises for any 2xx. -/
theorem delete_api_200_cex :
    delete_api (.resp 200 "OK" (some (.dict [("detail", .str "x")]))) =
      errdict "Failed to delete. Status code: 200" ∧
      (200 ≤ 200 ∧ 200 < 300 ∧ 200 ≠ 204) ∧
      pyHasKey (delete_api (.resp 200 "OK" (some (.dict [("detail", .str "x")])))) "error" =
        true :=
  ⟨rfl, by decide, rfl⟩

/-- The network as seen by `delete_data_handler`: what the name-lookup GET
on a given URL and name parameter does, and what the DELETE on a given URL
does. -/
structure NetEnv where
  getO : String → PyVal → HttpOutcome
  delO : String → HttpOutcome

/-- Python `v.get(key, default)` where delete responses are inspected; the
values reaching it are always dicts. -/
def pyVGetD (v : PyVal) (key : String) (default : PyVal) : PyVal :=
  match v with
  | .dict d => pyGetD d key default
  | _ => default

/-- The `delete_response.get("status") == "success"` test
(netbox_agent.py:272). -/
def pyIsSuccess (v : PyVal) : Bool :=
  match v with
  | .dict d =>
    match pyLookup d "status" with
    | some (.str s) => s == "success"
    | _ => false
  | _ => false

/-- The `try` block of `delete_data_handler` (netbox_agent.py:249-282) once
`api_url` is known to be a string and `name` truthy: look the name up,
treat a missing or zero `count` as "no resource", otherwise delete
`results[0]['id']`.  Exception renderings in the `except` branch messages
are abstracted; the trace component lists the DELETE URLs invoked. -/
def delete_lookup_phase (env : NetEnv) (u : String) (name : PyVal) :
    PyCall × List String :=
  match get_api (env.getO u name) with
  | .raises m => (.returns (errdict ("Error deleting data: " ++ m)), [])
  | .returns lr =>
    match lr with
    | .dict ld =>
      if pyEqZero (pyGetD ld "count" (.int 0)) then
        (.returns (errdict
          ("No resource found at '" ++ u ++ "' with name '" ++ pyStr name ++ "'.")), [])
      else
        match pyLookup ld "results" with
        | some (.list (e :: _)) =>
          match e with
          | .dict ed =>
            match pyLookup ed "id" with
            | some idv =>
              let delete_url := pyRstripSlash u ++ "/" ++ pyStr idv ++ "/"
              let dres := delete_api (env.delO delete_url)
              if pyIsSuccess dres then
                (.returns (.dict [("status", .str "success"),
                  ("message", .str ("Successfully deleted '" ++ pyStr name ++ "' at " ++ u ++ "."))]),
                  [delete_url])
              else
                (.returns (.dict [("error",
                  pyVGetD dres "error" (.str "Unknown error during deletion."))]),
                  [delete_url])
            | Option.none => (.returns (errdict "Error deleting data: KeyError"), [])
          | _ => (.returns (errdict "Error deleting data: TypeError"), [])
        | some (.list []) =>
          (.returns (errdict "Error deleting data: list index out of range"), [])
        | some _ => (.returns (errdict "Error deleting data: TypeError"), [])
        | Option.none => (.returns (errdict "Error deleting data: KeyError"), [])
    | _ => (.returns (errdict "Error deleting data: AttributeError"), [])

/-- Embedding of `delete_data_handler` (netbox_agent.py:235-282): validate
the payload, extract `api_url` and `payload["name"]`, then run the
lookup-then-delete phase.  A non-dict `payload` raises (the `.get` happens
before the `try`); a truthy non-string `api_url` becomes the handler's own
`except` error (the `AttributeError` arises inside the `try`). -/
def delete_data_handler (env : NetEnv) (parse : String → Option PyVal)
    (input : PyVal) : PyCall × List String :=
  let vres := validate_tool_input parse input ["api_url", "payload"] 5
  if pyHasKey vres "error" then (.returns vres, [])
  else
    match vres with
    | .dict vd =>
      let api_url := (pyLookup vd "api_url").getD .pyNone
      match (pyLookup vd "payload").getD (.dict []) with
      | .dict pd =>
        let name := (pyLookup pd "name").getD .pyNone
        if !(pyTruthy api_url) || !(pyTruthy name) then
          (.returns (errdict "Both 'api_url' and 'payload' with 'name' are required."), [])
        else
          match api_url with
          | .str u => delete_lookup_phase env u name
          | _ => (.returns (errdict "Error deleting data: AttributeError"), [])
      | _ => (.raises "AttributeError", [])
    | _ => (.raises "AttributeError", [])

/-- Control-flow skeleton of `delete_data_handler` on the canonical
`{"api_url": <string>, "payload": {"name": <string>}}` input: validation is
the identity and extraction reaches the lookup phase, guarded only by the
truthiness checks. -/
theorem delete_data_handler_named (env : NetEnv) (parse : String → Option PyVal)
    (u nm : String) :
    delete_data_handler env parse
        (.dict [("api_url", .str u), ("payload", .dict [("name", .str nm)])]) =
      if !(u != "") || !(nm != "") then
        (.returns (errdict "Both 'api_url' and 'payload' with 'name' are required."), [])
      else delete_lookup_phase env u (.str nm) := rfl

/-- C3 (amended): a delete request whose name lookup returns a body with
match count zero never invokes the DELETE operation and terminates with
`Error("No resource found at '<api_url>' with name '<name>'.")`. -/
theorem delete_count_zero_no_delete (env : NetEnv) (parse : String → Option PyVal)
    (u nm : String) (ld : List (String × PyVal)) (st : Nat) (etxt : String)
    (hu : u ≠ "") (hnm : nm ≠ "") (hst : st < 400)
    (hresp : env.getO u (.str nm) = .resp st etxt (some (.dict ld)))
    (hcount : pyEqZero (pyGetD ld "count" (.int 0)) = true) :
    delete_data_handler env parse
        (.dict [("api_url", .str u), ("payload", .dict [("name", .str nm)])]) =
      (.returns (errdict
        ("No resource found at '" ++ u ++ "' with name '" ++ nm ++ "'.")), []) := by
  have hu' : (u != "") = true := bne_iff_ne.mpr hu
  have hnm' : (nm != "") = true := bne_iff_ne.mpr hnm
  have hget : get_api (env.getO u (.str nm)) = .returns (.dict ld) := by
    rw [hresp]
    simp only [get_api]
    rw [if_neg (by omega)]
  rw [delete_data_handler_named, hu', hnm']
  simp only [Bool.not_true, Bool.or_self, Bool.false_eq_true, if_false,
    delete_lookup_phase, hget, hcount, if_true]
  rfl

/-- C3 witness: looking up `"Bell Canada"` at `/api/circuits/providers/`
against a backend answering `{"count": 0, "results": []}` yields the
no-resource error and issues no DELETE. -/
theorem delete_count_zero_no_delete_witness :
    delete_data_handler
        ⟨fun _ _ => .resp 200 "" (some (.dict [("count", .int 0), ("results", .list [])])),
          fun _ => .resp 204 "" Option.none⟩
        (fun _ => Option.none)
        (.dict [("api_url", .str "/api/circuits/providers/"),
          ("payload", .dict [("name", .str "Bell Canada")])]) =
      (.returns (errdict
        ("No resource found at '" ++ "/api/circuits/providers/" ++ "' with name '" ++
          "Bell Canada" ++ "'.")), []) :=
  delete_count_zero_no_delete
    ⟨fun _ _ => .resp 200 "" (some (.dict [("count", .int 0), ("results", .list [])])),
      fun _ => .resp 204 "" Option.none⟩
    (fun _ => Option.none) "/api/circuits/providers/" "Bell Canada"
    [("count", .int 0), ("results", .list [])] 200 ""
    (by decide) (by decide) (by decide) rfl rfl

/-- C3 counterexample: the error message the code produces for the
`"Bell Canada"` scenario is `"No resource found at '/api/circuits/providers/'
with name 'Bell Canada'."`, which is not the literal
`"no resource found with name Bell Canada"` the claim quotes (no DELETE is
issued either way). -/
theorem delete_no_resource_message_cex :
    delete_data_handler
        ⟨fun _ _ => .resp 200 "" (some (.dict [("count", .int 0), ("results", .list [])])),
          fun _ => .resp 204 "" Option.none⟩
        (fun _ => Option.none)
        (.dict [("api_url", .str "/api/circuits/providers/"),
          ("payload", .dict [("name", .str "Bell Canada")])]) =
      (.returns
        (errdict "No resource found at '/api/circuits/providers/' with name 'Bell Canada'."),
        []) ∧
      "No resource found at '/api/circuits/providers/' with name 'Bell Canada'." ≠
        "no resource found with name Bell Canada" :=
  ⟨rfl, by decide⟩

/-- C9: when the name-lookup GET fails in transport and the REST client
hands back `{"error": ...}` — a mapping with no `count` key — the handler
treats the missing count as zero: it returns the no-resource error rather
than propagating the transport error, and issues no DELETE. -/
theorem lookup_error_treated_as_zero (env : NetEnv) (parse : String → Option PyVal)
    (u nm t : String) (hu : u ≠ "") (hnm : nm ≠ "")
    (hresp : env.getO u (.str nm) = .transportErr t) :
    get_api (env.getO u (.str nm)) =
        .returns (errdict ("Request failed: " ++ t)) ∧
      delete_data_handler env parse
        (.dict [("api_url", .str u), ("payload", .dict [("name", .str nm)])]) =
      (.returns (errdict
        ("No resource found at '" ++ u ++ "' with name '" ++ nm ++ "'.")), []) := by
  have hu' : (u != "") = true := bne_iff_ne.mpr hu
  have hnm' : (nm != "") = true := bne_iff_ne.mpr hnm
  have hget : get_api (env.getO u (.str nm)) = .returns (errdict ("Request failed: " ++ t)) := by
    rw [hresp]
    rfl
  refine ⟨hget, ?_⟩
  rw [delete_data_handler_named, hu', hnm']
  simp only [Bool.not_true, Bool.or_self, Bool.false_eq_true, if_false,
    delete_lookup_phase, hget]
  rfl

/-- C9 witness: a connection failure on the lookup of `"Bell Canada"` is
reported as the no-resource error, with no DELETE issued. -/
theorem lookup_error_treated_as_zero_witness :
    get_api ((NetEnv.mk (fun _ _ => .transportErr "connection refused")
          (fun _ => .resp 204 "" Option.none)).getO "/api/circuits/providers/"
          (.str "Bell Canada")) =
        .returns (errdict ("Request failed: " ++ "connection refused")) ∧
      delete_data_handler
        ⟨fun _ _ => .transportErr "connection refused", fun _ => .resp 204 "" Option.none⟩
        (fun _ => Option.none)
        (.dict [("api_url", .str "/api/circuits/providers/"),
          ("payload", .dict [("name", .str "Bell Canada")])]) =
      (.returns (errdict
        ("No resource found at '" ++ "/api/circuits/providers/" ++ "' with name '" ++
          "Bell Canada" ++ "'.")), []) :=
  lookup_error_treated_as_zero
    ⟨fun _ _ => .transportErr "connection refused", fun _ => .resp 204 "" Option.none⟩
    (fun _ => Option.none) "/api/circuits/providers/" "Bell Canada" "connection refused"
    (by decide) (by decide) rfl

/-- The vendor alias table of `fetch_cves_from_opencve`
(opencve_agent.py:84-91). -/
def vendor_mapping : List (String × String) :=
  [("juniper networks", "juniper"), ("juniper", "juniper"),
   ("cisco systems", "cisco"), ("cisco", "cisco"),
   ("arista networks", "arista"), ("arista", "arista")]

/-- Vendor normalization (opencve_agent.py:80-92): strip, lowercase, then
look the result up in the alias table, falling back to the lowercased form
itself. -/
def normalize_vendor (v : String) : String :=
  (List.lookup (pyLower (pyStrip v)) vendor_mapping).getD (pyLower (pyStrip v))

/-- Version broadening (opencve_agent.py:121):
`".".join(version.split(".")[:2])`. -/
def fallback_of (version : String) : String :=
  joinDot ((pySplitDot version).take 2)

/-- What one OpenCVE GET did: a `requests` failure (transport error or a
status that `raise_for_status` rejects), a parsed JSON body, or a body that
`response.json()` cannot parse. -/
inductive QueryOutcome where
  | reqFail
  | ok (body : PyVal)
  | badJson (msg : String)

/-- The environment of `fetch_cves_from_opencve`: whether both OpenCVE
credentials are present, and what the GET for a vendor/version pair does. -/
structure OcEnv where
  hasCreds : Bool
  query : String → String → QueryOutcome

/-- One step of the list comprehension at opencve_agent.py:135:
`{"cve_id": cve["cve_id"], "description": cve["description"][:200] + "..."}`.
A record without the keys, with a non-string description, or that is not a
dict raises (rendering abstracted). -/
def format_cve (v : PyVal) : Except String PyVal :=
  match v with
  | .dict d =>
    match pyLookup d "cve_id", pyLookup d "description" with
    | some idv, some (.str desc) =>
      .ok (.dict [("cve_id", idv), ("description", .str (pySlice desc 200 ++ "..."))])
    | some _, some _ => .error "TypeError"
    | _, _ => .error "KeyError"
  | _ => .error "TypeError"

/-- The comprehension body mapped over a record list, first failure wins. -/
def format_cves_list : List PyVal → Except String (List PyVal)
  | [] => .ok []
  | x :: xs =>
    match format_cve x, format_cves_list xs with
    | .ok y, .ok ys => .ok (y :: ys)
    | .error m, _ => .error m
    | .ok _, .error m => .error m

/-- The Response Normalizer of `fetch_cves_from_opencve`
(opencve_agent.py:135): `cve_list[:10]` then the per-record comprehension. -/
def formatted_cves (cve_list : List PyVal) : Except String (List PyVal) :=
  format_cves_list (cve_list.take 10)

/-- Result extraction of `fetch_cves_from_opencve` (opencve_agent.py:131-138)
on the final `json_response`: read `results` (default `[]`), report "no
CVEs" on a falsy list, otherwise normalize the records and read the `count`
key (a direct index: missing `count` raises a `KeyError`). -/
def opencve_extract (vendor version : String) (body : PyVal) : PyCall :=
  match body with
  | .dict d =>
    match (pyLookup d "results").getD (.list []) with
    | .list xs =>
      if xs.isEmpty then
        .returns (.dict [("message",
          .str ("No CVEs found for " ++ vendor ++ " " ++ version ++ "."))])
      else
        match formatted_cves xs with
        | .ok ys =>
          match pyLookup d "count" with
          | some c => .returns (.dict [("cve_count", c), ("cves", .list ys)])
          | Option.none => .raises "KeyError"
        | .error m => .raises m
    | other_val =>
      if pyTruthy other_val then .raises "TypeError"
      else
        .returns (.dict [("message",
          .str ("No CVEs found for " ++ vendor ++ " " ++ version ++ "."))])
  | _ => .raises "AttributeError"

/-- The query-and-fallback phase of `fetch_cves_from_opencve`
(opencve_agent.py:112-138): issue the exact query; when its body carries
`count` 0 (or no `count`) and truncating the version to its first two
dot-separated components changes it, issue exactly one broadened retry; then
extract from whichever body is current.  A `requests` failure becomes the
fixed fetch error; an unparseable body raises.  The trace lists the
`(vendor, version)` pairs queried, in order. -/
def opencve_query_phase (env : OcEnv) (vendor version : String) :
    PyCall × List (String × String) :=
  match env.query vendor version with
  | .reqFail => (.returns (errdict "Failed to fetch CVEs from OpenCVE."), [(vendor, version)])
  | .badJson m => (.raises m, [(vendor, version)])
  | .ok body =>
    match body with
    | .dict d =>
      if pyEqZero (pyGetD d "count" (.int 0)) then
        if fallback_of version != version then
          match env.query vendor (fallback_of version) with
          | .reqFail =>
            (.returns (errdict "Failed to fetch CVEs from OpenCVE."),
              [(vendor, version), (vendor, fallback_of version)])
          | .badJson m => (.raises m, [(vendor, version), (vendor, fallback_of version)])
          | .ok body2 =>
            (opencve_extract vendor version body2,
              [(vendor, version), (vendor, fallback_of version)])
        else (opencve_extract vendor version body, [(vendor, version)])
      else (opencve_extract vendor version body, [(vendor, version)])
    | _ => (.raises "AttributeError", [(vendor, version)])

/-- Embedding of `fetch_cves_from_opencve` (opencve_agent.py:60-142): parse
string input (after replacing single quotes), require a dict, extract and
normalize `vendor`, strip `version`, require both non-empty and the
credentials present, then run the query-and-fallback phase.  Non-string
`vendor`/`version` values raise on `.strip()`. -/
def fetch_cves_from_opencve (env : OcEnv) (parse : String → Option PyVal)
    (input : PyVal) : PyCall × List (String × String) :=
  match (match input with
         | .str s => parse (pySquoteToDquote s)
         | v => some v) with
  | Option.none =>
    (.returns (errdict "Invalid input format. Expected a valid JSON dictionary."), [])
  | some v =>
    match v with
    | .dict d =>
      match (pyLookup d "vendor").getD (.str "") with
      | .str vs =>
        match (pyLookup d "version").getD (.str "") with
        | .str vers =>
          if normalize_vendor vs == "" || pyStrip vers == "" then
            (.returns (errdict "Missing 'vendor' or 'version' field."), [])
          else if !env.hasCreds then
            (.returns (errdict "OpenCVE API credentials not found."), [])
          else opencve_query_phase env (normalize_vendor vs) (pyStrip vers)
        | _ => (.raises "AttributeError", [])
      | _ => (.raises "AttributeError", [])
    | _ => (.returns (errdict "Invalid input format. Expected a dictionary."), [])

/-- Control-flow skeleton of `fetch_cves_from_opencve` on a
`{"vendor": <string>, "version": <string>}` input. -/
theorem fetch_cves_named (env : OcEnv) (parse : String → Option PyVal)
    (vs vers : String) :
    fetch_cves_from_opencve env parse
        (.dict [("vendor", .str vs), ("version", .str vers)]) =
      if normalize_vendor vs == "" || pyStrip vers == "" then
        (.returns (errdict "Missing 'vendor' or 'version' field."), [])
      else if !env.hasCreds then
        (.returns (errdict "OpenCVE API credentials not found."), [])
      else opencve_query_phase env (normalize_vendor vs) (pyStrip vers) := rfl

/-- The query trace of one query-and-fallback phase: either the exact query
alone, or the exact query followed by the single broadened query. -/
theorem opencve_query_phase_trace_shape (env : OcEnv) (v ver : String) :
    (opencve_query_phase env v ver).2 = [(v, ver)] ∨
      (opencve_query_phase env v ver).2 = [(v, ver), (v, fallback_of ver)] := by
  unfold opencve_query_phase
  cases env.query v ver with
  | reqFail => left; rfl
  | badJson m => left; rfl
  | ok body =>
    cases body with
    | dict d =>
      dsimp only
      split
      · split
        · cases env.query v (fallback_of ver) with
          | reqFail => right; rfl
          | badJson m => right; rfl
          | ok b2 => right; rfl
        · left; rfl
      · left; rfl
    | str s => left; rfl
    | int n => left; rfl
    | list l => left; rfl
    | pyNone => left; rfl
    | other => left; rfl

/-- Every query the phase issues uses the vendor it was given. -/
theorem opencve_query_phase_trace_vendor (env : OcEnv) (v ver : String)
    (q : String × String) (hq : q ∈ (opencve_query_phase env v ver).2) : q.1 = v := by
  rcases opencve_query_phase_trace_shape env v ver with h | h <;> rw [h] at hq
  · rw [List.mem_singleton.mp hq]
  · rcases List.mem_cons.mp hq with rfl | hq2
    · rfl
    · rw [List.mem_singleton.mp hq2]

/-- The broadener issues at most two queries per call, whatever the input
and the backend's answers: there is no recursive widening. -/
theorem fetch_cves_trace_len (env : OcEnv) (parse : String → Option PyVal)
    (input : PyVal) : (fetch_cves_from_opencve env parse input).2.length ≤ 2 := by
  unfold fetch_cves_from_opencve
  repeat' split
  all_goals
    first
      | simp
      | (rcases opencve_query_phase_trace_shape env (normalize_vendor _) (pyStrip _)
            with h | h <;> rw [h] <;> simp)

/-- C2 (amended): truncating `"21.4R5"` to its first two dot-separated
components yields `"21.4R5"` itself, so a zero-result query for it is not
retried at all; a version that truncation does change, such as `"21.4.5"`,
is retried exactly once with the broadened `"21.4"` — and never a second
time even when the broadened query also returns zero results, since the
trace of any call never exceeds two queries. -/
theorem fallback_broaden_once (env : OcEnv) (parse : String → Option PyVal)
    (hc : env.hasCreds = true)
    (hq : ∀ v ver, env.query v ver =
      .ok (.dict [("count", .int 0), ("results", .list [])])) :
    fetch_cves_from_opencve env parse
        (.dict [("vendor", .str "juniper"), ("version", .str "21.4R5")]) =
      (.returns (.dict [("message", .str "No CVEs found for juniper 21.4R5.")]),
        [("juniper", "21.4R5")]) ∧
      fetch_cves_from_opencve env parse
        (.dict [("vendor", .str "juniper"), ("version", .str "21.4.5")]) =
      (.returns (.dict [("message", .str "No CVEs found for juniper 21.4.5.")]),
        [("juniper", "21.4.5"), ("juniper", "21.4")]) ∧
      ∀ (env2 : OcEnv) (parse2 : String → Option PyVal) (input : PyVal),
        (fetch_cves_from_opencve env2 parse2 input).2.length ≤ 2 := by
  refine ⟨?_, ?_, fun env2 parse2 input => fetch_cves_trace_len env2 parse2 input⟩
  · simp only [fetch_cves_named, opencve_query_phase, hq, hc]
    rfl
  · simp only [fetch_cves_named, opencve_query_phase, hq, hc]
    rfl

/-- C2 witness: against a backend always answering `{"count": 0, "results":
[]}`, the version `"21.4.5"` is queried exactly twice, the second time
broadened to `"21.4"`. -/
theorem fallback_broaden_once_witness :
    fetch_cves_from_opencve
        ⟨true, fun _ _ => .ok (.dict [("count", .int 0), ("results", .list [])])⟩
        (fun _ => Option.none)
        (.dict [("vendor", .str "juniper"), ("version", .str "21.4.5")]) =
      (.returns (.dict [("message", .str "No CVEs found for juniper 21.4.5.")]),
        [("juniper", "21.4.5"), ("juniper", "21.4")]) :=
  (fallback_broaden_once
    ⟨true, fun _ _ => .ok (.dict [("count", .int 0), ("results", .list [])])⟩
    (fun _ => Option.none) rfl (fun _ _ => rfl)).2.1

/-- C2 counterexample: for version `"21.4R5"` with zero results the
broadened version equals the original — `"21.4R5".split(".")` is
`["21", "4R5"]` — so the code issues a single query and never retries with
`"21.4"`, contrary to the claimed one retry with `"21.4"`. -/
theorem fallback_no_broaden_cex :
    fallback_of "21.4R5" = "21.4R5" ∧
      fetch_cves_from_opencve
        ⟨true, fun _ _ => .ok (.dict [("count", .int 0), ("results", .list [])])⟩
        (fun _ => Option.none)
        (.dict [("vendor", .str "juniper"), ("version", .str "21.4R5")]) =
      (.returns (.dict [("message", .str "No CVEs found for juniper 21.4R5.")]),
        [("juniper", "21.4R5")]) ∧
      "21.4R5" ≠ "21.4" :=
  ⟨rfl, rfl, by decide⟩

/-- C8: vendor names are normalized through the fixed case-insensitive
alias table before querying: any spelling of `"Juniper Networks"` (any
letter case, surrounding whitespace allowed) is queried as `"juniper"`, a
vendor absent from the table is queried as its stripped lowercased form,
and every query the broadener issues carries the normalized vendor. -/
theorem vendor_normalization :
    (∀ s, pyLower (pyStrip s) = "juniper networks" → normalize_vendor s = "juniper") ∧
      (∀ s, List.lookup (pyLower (pyStrip s)) vendor_mapping = Option.none →
        normalize_vendor s = pyLower (pyStrip s)) ∧
      ∀ (env : OcEnv) (parse : String → Option PyVal) (vs vers : String),
        ∀ q ∈ (fetch_cves_from_opencve env parse
            (.dict [("vendor", .str vs), ("version", .str vers)])).2,
          q.1 = normalize_vendor vs := by
  refine ⟨fun s h => ?_, fun s h => ?_, fun env parse vs vers q hq => ?_⟩
  · unfold normalize_vendor
    rw [h]
    rfl
  · unfold normalize_vendor
    rw [h]
    rfl
  · rw [fetch_cves_named] at hq
    split at hq
    · simp at hq
    · split at hq
      · simp at hq
      · exact opencve_query_phase_trace_vendor env (normalize_vendor vs) (pyStrip vers) q hq

/-- C8 witness: `"JUNIPER Networks"` normalizes to `"juniper"`, the
unmapped vendor `"Nokia"` normalizes to its lowercased form, and the query
actually issued for vendor `"Juniper Networks"` carries `"juniper"`. -/
theorem vendor_normalization_witness :
    normalize_vendor "JUNIPER Networks" = "juniper" ∧
      normalize_vendor "Nokia" = pyLower (pyStrip "Nokia") ∧
      ("juniper", "21.4R5").1 = normalize_vendor "Juniper Networks" :=
  ⟨vendor_normalization.1 "JUNIPER Networks" rfl,
    vendor_normalization.2.1 "Nokia" rfl,
    vendor_normalization.2.2
      ⟨true, fun _ _ => .ok (.dict [("count", .int 0), ("results", .list [])])⟩
      (fun _ => Option.none) "Juniper Networks" "21.4R5" ("juniper", "21.4R5")
      (by decide)⟩

/-- A successful comprehension preserves the record count. -/
theorem format_cves_list_length :
    ∀ (l ys : List PyVal), format_cves_list l = .ok ys → ys.length = l.length := by
  intro l
  induction l with
  | nil =>
    intro ys h
    simp only [format_cves_list] at h
    injection h with h2
    rw [← h2]
  | cons x xs ih =>
    intro ys h
    simp only [format_cves_list] at h
    cases hfx : format_cve x with
    | error m => rw [hfx] at h; simp at h
    | ok y1 =>
      rw [hfx] at h
      cases hrest : format_cves_list xs with
      | error m => rw [hrest] at h; simp at h
      | ok ys2 =>
        rw [hrest] at h
        dsimp only at h
        injection h with h2
        rw [← h2, List.length_cons, List.length_cons, ih ys2 hrest]

/-- Every record of a successful comprehension output comes from a record
of the input. -/
theorem format_cves_list_mem (y : PyVal) :
    ∀ (l ys : List PyVal), format_cves_list l = .ok ys → y ∈ ys →
      ∃ x ∈ l, format_cve x = .ok y := by
  intro l
  induction l with
  | nil =>
    intro ys h hy
    simp only [format_cves_list] at h
    injection h with h2
    rw [← h2] at hy
    simp at hy
  | cons x xs ih =>
    intro ys h hy
    simp only [format_cves_list] at h
    cases hfx : format_cve x with
    | error m => rw [hfx] at h; simp at h
    | ok y1 =>
      rw [hfx] at h
      cases hrest : format_cves_list xs with
      | error m => rw [hrest] at h; simp at h
      | ok ys2 =>
        rw [hrest] at h
        dsimp only at h
        injection h with h2
        rw [← h2] at hy
        rcases List.mem_cons.mp hy with rfl | hy2
        · exact ⟨x, List.mem_cons_self x xs, hfx⟩
        · rcases ih ys2 hrest hy2 with ⟨x2, hx2, hfx2⟩
          exact ⟨x2, List.mem_cons_of_mem x hx2, hfx2⟩

/-- Anatomy of one formatted record: the input was a dict with a string
`description`, and the output's `description` is its first 200 characters
with the ellipsis marker appended. -/
theorem format_cve_description (x y : PyVal) (h : format_cve x = .ok y) :
    ∃ d desc idv, x = .dict d ∧ pyLookup d "description" = some (.str desc) ∧
      y = .dict [("cve_id", idv), ("description", .str (pySlice desc 200 ++ "..."))] := by
  cases x with
  | dict d =>
    simp only [format_cve] at h
    cases h1 : pyLookup d "cve_id" with
    | none => rw [h1] at h; simp at h
    | some idv =>
      rw [h1] at h
      cases h2 : pyLookup d "description" with
      | none => rw [h2] at h; simp at h
      | some dv =>
        rw [h2] at h
        cases dv with
        | str desc =>
          dsimp only at h
          injection h with h3
          exact ⟨d, desc, idv, rfl, h2, h3.symm⟩
        | int n => simp at h
        | dict d2 => simp at h
        | list l => simp at h
        | pyNone => simp at h
        | other => simp at h
  | str s => simp [format_cve] at h
  | int n => simp [format_cve] at h
  | list l => simp [format_cve] at h
  | pyNone => simp [format_cve] at h
  | other => simp [format_cve] at h

/-- C7: the Response Normalizer returns at most 10 records, and each
returned record's `description` is the first 200 characters of the source
record's description with an appended ellipsis — descriptions longer than
200 characters are truncated to the 200-character cap. -/
theorem formatted_cves_bounds (xs ys : List PyVal)
    (h : formatted_cves xs = .ok ys) :
    ys.length ≤ 10 ∧
      ∀ y ∈ ys, ∃ x ∈ xs, ∃ d desc idv,
        x = .dict d ∧ pyLookup d "description" = some (.str desc) ∧
        y = .dict [("cve_id", idv), ("description", .str (pySlice desc 200 ++ "..."))] := by
  unfold formatted_cves at h
  constructor
  · rw [format_cves_list_length _ _ h, List.length_take]
    exact Nat.min_le_left 10 xs.length
  · intro y hy
    rcases format_cves_list_mem y _ _ h hy with ⟨x, hx, hfx⟩
    rcases format_cve_description x y hfx with ⟨d, desc, idv, hxd, hdesc, hyd⟩
    exact ⟨x, List.take_subset 10 xs hx, d, desc, idv, hxd, hdesc, hyd⟩

/-- C7 witness: a single record with a 201-character description is
normalized to one record whose description keeps exactly the first 200
characters plus the ellipsis. -/
theorem formatted_cves_bounds_witness :
    formatted_cves
        [.dict [("cve_id", .str "CVE-2024-0001"),
          ("description", .str ⟨List.replicate 201 'a'⟩)]] =
      .ok [.dict [("cve_id", .str "CVE-2024-0001"),
        ("description", .str (pySlice ⟨List.replicate 201 'a'⟩ 200 ++ "..."))]] ∧
      ([.dict [("cve_id", .str "CVE-2024-0001"),
        ("description", .str (pySlice ⟨List.replicate 201 'a'⟩ 200 ++ "..."))]] :
          List PyVal).length ≤ 10 ∧
      (⟨List.replicate 201 'a'⟩ : String).length = 201 ∧
      (pySlice ⟨List.replicate 201 'a'⟩ 200).length = 200 :=
  ⟨rfl,
    (formatted_cves_bounds
      [.dict [("cve_id", .str "CVE-2024-0001"),
        ("description", .str ⟨List.replicate 201 'a'⟩)]]
      [.dict [("cve_id", .str "CVE-2024-0001"),
        ("description", .str (pySlice ⟨List.replicate 201 'a'⟩ 200 ++ "..."))]] rfl).1,
    by
      rw [show (⟨List.replicate 201 'a'⟩ : String).length =
        (List.replicate 201 'a').length from rfl, List.length_replicate],
    by
      rw [show (pySlice ⟨List.replicate 201 'a'⟩ 200).length =
        ((List.replicate 201 'a').take 200).length from rfl, List.length_take,
        List.length_replicate]
      omega⟩
